import Mathlib

/-!
Verification of the Tool Registry and Dispatch Plane of an MCP tool-hosting
server.  The Python sources under src/mcp_search_server are shallowly embedded:

* tools/base.py       — ToolCategory, ToolPriority, ToolMetadata, BaseTool,
                        FunctionTool (schema auto-derivation, tracking, search
                        predicate, descriptors)
* registry/schema.py  — get_json_type, generate_input_schema
* registry/tool_registry.py — ToolRegistry (register, indexes, search, load)
* registry/loader.py  — register_tool_from_config, _import_and_get_tool,
                        get_tool_list
* server.py           — call_tool handler (dispatch + result encoding)

Python dictionaries are modelled as insertion-ordered association lists whose
assignment updates in place and appends fresh keys, matching dict semantics.
Mutation is modelled by explicit state passing; a raised exception is an
Except.error paired with the state as it was when the exception escaped.
Wall-clock durations are passed as explicit parameters.  The importlib-based
module resolution of loader.py is modelled as an explicit environment mapping
a tool name to the implementation function it resolves to.
-/

/-- Python-dict lookup on an association list (first binding wins). -/
def alist_get [DecidableEq κ] : List (κ × α) → κ → Option α
  | [], _ => none
  | p :: rest, k => if p.1 = k then some p.2 else alist_get rest k

/-- Lookup with a default, mirroring dict.get(k, d). -/
def alist_getD [DecidableEq κ] (m : List (κ × α)) (k : κ) (d : α) : α :=
  (alist_get m k).getD d

/-- Python-dict assignment: update the existing binding in place (keeping its
position) or append a fresh binding at the end. -/
def alist_insert [DecidableEq κ] : List (κ × α) → κ → α → List (κ × α)
  | [], k, v => [(k, v)]
  | p :: rest, k, v => if p.1 = k then (k, v) :: rest else p :: alist_insert rest k v

/-- Python del: remove the binding for a key. -/
def alist_erase [DecidableEq κ] : List (κ × α) → κ → List (κ × α)
  | [], _ => []
  | p :: rest, k => if p.1 = k then alist_erase rest k else p :: alist_erase rest k

/-- Membership test for Python `in` on a dict. -/
def alist_has [DecidableEq κ] (m : List (κ × α)) (k : κ) : Bool :=
  (alist_get m k).isSome

/-- Does the character list n occur at the head of the second list? -/
def starts_with : List Char → List Char → Bool
  | [], _ => true
  | _ :: _, [] => false
  | a :: as, b :: bs => a == b && starts_with as bs

/-- Contiguous-sublist search on character lists. -/
def substr_search (n : List Char) : List Char → Bool
  | [] => n.isEmpty
  | c :: rest => starts_with n (c :: rest) || substr_search n rest

/-- Python substring test: needle in hay. -/
def py_str_in (needle hay : String) : Bool :=
  substr_search needle.toList hay.toList

/-- Python str.lower restricted to ASCII, which is all the registry data uses. -/
def py_lower (s : String) : String :=
  String.mk (s.toList.map Char.toLower)

/-- Python str.upper restricted to ASCII, used for the enum lookups. -/
def py_upper (s : String) : String :=
  String.mk (s.toList.map Char.toUpper)

/-- ToolCategory enumeration of tools/base.py. -/
inductive ToolCategory where
  | web | knowledge | social | analysis | context | files | meta
deriving DecidableEq, Repr

/-- The .value attribute of a ToolCategory member. -/
def ToolCategory.value : ToolCategory → String
  | .web => "web"
  | .knowledge => "knowledge"
  | .social => "social"
  | .analysis => "analysis"
  | .context => "context"
  | .files => "files"
  | .meta => "meta"

/-- ToolPriority enumeration of tools/base.py. -/
inductive ToolPriority where
  | HIGH | MEDIUM | LOW
deriving DecidableEq, Repr

/-- The .value attribute of a ToolPriority member. -/
def ToolPriority.value : ToolPriority → String
  | .HIGH => "HIGH"
  | .MEDIUM => "MEDIUM"
  | .LOW => "LOW"

/-- ToolCategory[s]: name-based enum indexing, none models a KeyError. -/
def category_by_name (s : String) : Option ToolCategory :=
  if s = "WEB" then some .web
  else if s = "KNOWLEDGE" then some .knowledge
  else if s = "SOCIAL" then some .social
  else if s = "ANALYSIS" then some .analysis
  else if s = "CONTEXT" then some .context
  else if s = "FILES" then some .files
  else if s = "META" then some .meta
  else none

/-- getattr(ToolPriority, s, default)-style lookup by member name. -/
def priority_by_name (s : String) : Option ToolPriority :=
  if s = "HIGH" then some .HIGH
  else if s = "MEDIUM" then some .MEDIUM
  else if s = "LOW" then some .LOW
  else none

/-- Kinds of Python function parameters as reported by inspect. -/
inductive ParamKind where
  | positionalOrKeyword | positionalOnly | keywordOnly | varPositional | varKeyword
deriving DecidableEq, Repr

mutual

/-- Python annotation types that schema.py's get_json_type inspects.  The
argument tuple of a Union annotation is a mutually defined list so that the
recursion below stays structural. -/
inductive PyType where
  | pystr | pyint | pyfloat | pybool
  | pylist (elem : PyType)
  | pydict
  | pynone
  | pyany
  | pyunion (ts : PyTypeList)

/-- The argument tuple of a Union annotation. -/
inductive PyTypeList where
  | nil
  | cons (head : PyType) (tail : PyTypeList)

end

/-- Test for NoneType, used by the Optional-stripping filter in get_json_type. -/
def PyType.isNone : PyType → Bool
  | .pynone => true
  | _ => false

mutual

/-- Map Python types to JSON schema type strings (schema.py, get_json_type),
with the Union case fused into one scan: the source filters the Union's
arguments down to those that are not NoneType and recurses exactly when one
argument remains, so scan_union returns the count of non-None arguments
together with the JSON type of the first one, and the Union case answers with
that type when the count is one and the default "string" otherwise. -/
def PyType.json_type : PyType → String
  | .pystr => "string"
  | .pyint => "integer"
  | .pyfloat => "number"
  | .pybool => "boolean"
  | .pylist _ => "array"
  | .pydict => "object"
  | .pynone => "string"
  | .pyany => "string"
  | .pyunion ts =>
    match PyTypeList.scan_union ts with
    | (1, s) => s
    | _ => "string"

/-- Count of non-None Union arguments paired with the JSON type of the first
such argument. -/
def PyTypeList.scan_union : PyTypeList → Nat × String
  | .nil => (0, "string")
  | .cons t rest =>
    if t.isNone then PyTypeList.scan_union rest
    else ((PyTypeList.scan_union rest).1 + 1, t.json_type)

end

/-- get_json_type of schema.py. -/
def get_json_type (t : PyType) : String :=
  PyType.json_type t

/-- One parameter of a Python signature as seen by inspect.signature. A
variadic parameter has no default, hence hasDefault = false for those. -/
structure Param where
  name : String
  kind : ParamKind
  ty : PyType
  hasDefault : Bool

/-- A Python callable signature: the ordered parameter list. -/
structure PyFunc where
  params : List Param

/-- The dict returned by generate_input_schema: always has type "object",
so only properties (name to JSON type) and required are recorded. -/
structure InputSchema where
  properties : List (String × String)
  required : List String
deriving DecidableEq, Repr

/-- generate_input_schema of schema.py: iterate over the signature's
parameters, skipping any parameter NAMED self, cls, kwargs or args (the
source tests only the name, never the parameter kind); every kept parameter
contributes a property, and is required iff it has no default.  Reflection
cannot fail in the embedding, so the except-fallback branch is not
represented. -/
def generate_input_schema (f : PyFunc) : InputSchema :=
  let kept := f.params.filter (fun p =>
    !(p.name == "self" || p.name == "cls" || p.name == "kwargs" || p.name == "args"))
  { properties := kept.map (fun p => (p.name, get_json_type p.ty)),
    required := (kept.filter (fun p => !p.hasDefault)).map (fun p => p.name) }

/-- A JSON schema value as stored in metadata or emitted in descriptors:
either the object-shaped dict produced by generate_input_schema, the empty
dict, or some other JSON document identified by an opaque tag. -/
inductive SchemaVal where
  | objS (schema : InputSchema)
  | emptyD
  | other (tag : String)
deriving DecidableEq, Repr

/-- Python truthiness of a schema dict: only the empty dict is falsy. -/
def SchemaVal.truthy : SchemaVal → Bool
  | .emptyD => false
  | _ => true

/-- Python truthiness of an optional schema: None and the empty dict are falsy. -/
def opt_schema_truthy : Option SchemaVal → Bool
  | none => false
  | some s => s.truthy

/-- Python x or a-literal-empty-dict, applied to an optional schema value. -/
def or_empty_dict (os : Option SchemaVal) : SchemaVal :=
  match os with
  | some s => if s.truthy then s else .emptyD
  | none => .emptyD

/-- Adapter return values as the call_tool encoder distinguishes them: a
scalar string, integer or boolean, None, or a dict/list value whose JSON
serialization is carried as an opaque string (json.dumps is not re-modelled
because no claim depends on the serialized text). -/
inductive PyValue where
  | pstr (s : String)
  | pint (n : Int)
  | pbool (b : Bool)
  | pnone
  | pjson (dump : String)
deriving DecidableEq, Repr

/-- The keyword-argument mapping passed to a tool invocation. -/
def Args : Type := List (String × PyValue)

/-- ToolMetadata dataclass of tools/base.py, with the same defaults.  The
examples entries are opaque tags, nothing reads into them. -/
structure ToolMetadata where
  name : String
  description : String
  category : ToolCategory
  priority : ToolPriority := .MEDIUM
  version : String := "1.0.0"
  tags : List String := []
  examples : List String := []
  defer_loading : Bool := true
  input_schema : Option SchemaVal := none
  output_schema : Option SchemaVal := none
  estimated_duration_ms : Option Nat := none
  requires_network : Bool := false
  requires_filesystem : Bool := false

/-- The dictionary produced by ToolMetadata.to_dict, with enum members
replaced by their value strings. -/
structure MetadataDict where
  name : String
  description : String
  category : String
  priority : String
  version : String
  tags : List String
  examples : List String
  defer_loading : Bool
  input_schema : Option SchemaVal
  output_schema : Option SchemaVal
  estimated_duration_ms : Option Nat
  requires_network : Bool
  requires_filesystem : Bool

/-- ToolMetadata.to_dict of tools/base.py. -/
def ToolMetadata.to_dict (m : ToolMetadata) : MetadataDict :=
  { name := m.name
    description := m.description
    category := m.category.value
    priority := m.priority.value
    version := m.version
    tags := m.tags
    examples := m.examples
    defer_loading := m.defer_loading
    input_schema := m.input_schema
    output_schema := m.output_schema
    estimated_duration_ms := m.estimated_duration_ms
    requires_network := m.requires_network
    requires_filesystem := m.requires_filesystem }

/-- A tool object: metadata, the mutable statistics counters owned by the
tool, and the behavior of its execute method.  The behavior maps the keyword
arguments to the returned value or to the message of the raised exception. -/
structure BaseTool where
  metadata : ToolMetadata
  execution_count : Nat := 0
  total_duration_ms : Nat := 0
  error_count : Nat := 0
  behavior : Args → Except String PyValue

/-- The name property. -/
def BaseTool.name (t : BaseTool) : String := t.metadata.name

/-- The description property. -/
def BaseTool.description (t : BaseTool) : String := t.metadata.description

/-- The category property. -/
def BaseTool.category (t : BaseTool) : ToolCategory := t.metadata.category

/-- The priority property. -/
def BaseTool.priority (t : BaseTool) : ToolPriority := t.metadata.priority

/-- The execute method: runs the adapter behavior without touching any
counter. -/
def BaseTool.execute (t : BaseTool) (args : Args) : Except String PyValue :=
  t.behavior args

/-- execute_with_tracking of tools/base.py: on success increment
execution_count and add the measured wall-clock duration (passed here as the
explicit parameter dur) to total_duration_ms; on failure increment
error_count and re-raise.  The updated tool object is returned alongside the
outcome. -/
def BaseTool.execute_with_tracking (t : BaseTool) (args : Args) (dur : Nat) :
    Except String PyValue × BaseTool :=
  match t.behavior args with
  | .ok v =>
    (.ok v,
      { t with
        execution_count := t.execution_count + 1
        total_duration_ms := t.total_duration_ms + dur })
  | .error e => (.error e, { t with error_count := t.error_count + 1 })

/-- matches_query of tools/base.py: case-insensitive substring test against
the name, the description, each tag, and the category value. -/
def BaseTool.matches_query (t : BaseTool) (query : String) : Bool :=
  let ql := py_lower query
  py_str_in ql (py_lower t.name) ||
  py_str_in ql (py_lower t.description) ||
  t.metadata.tags.any (fun tg => py_str_in ql (py_lower tg)) ||
  py_str_in ql (py_lower t.category.value)

/-- FunctionTool construction of tools/base.py: wrap a callable and, when the
metadata carries no (truthy) input schema, derive one from the callable's
signature. -/
def FunctionTool.make (metadata : ToolMetadata) (sig : PyFunc)
    (behavior : Args → Except String PyValue) : BaseTool :=
  let md :=
    if opt_schema_truthy metadata.input_schema then metadata
    else { metadata with input_schema := some (.objS (generate_input_schema sig)) }
  { metadata := md, behavior := behavior }

/-- A deferred-tool record as stored in ToolRegistry._deferred_tools: the
category and priority enum members, the backing loader thunk, and the
metadata dictionary snapshot. -/
structure DeferredInfo where
  category : ToolCategory
  priority : ToolPriority
  loader : Unit → Except String BaseTool
  metadata : MetadataDict

/-- The mutable state of a ToolRegistry: the live map, the deferred map, the
loaded-category set, the three indexes and the two counters. -/
structure RegistryState where
  tools : List (String × BaseTool) := []
  deferred_tools : List (String × DeferredInfo) := []
  loaded_categories : List String := []
  by_category : List (ToolCategory × List String) := []
  by_priority : List (ToolPriority × List String) := []
  by_tag : List (String × List String) := []
  load_count : Nat := 0
  search_count : Nat := 0

/-- The freshly initialized registry. -/
def empty_registry : RegistryState := {}

/-- Append a name to an index bucket unless it is already there. -/
def ins_name (name : String) (l : List String) : List String :=
  if name ∈ l then l else l ++ [name]

/-- The by_tag part of ToolRegistry._index_tool: walk the tags in order,
adding the name to each bucket it is missing from. -/
def index_tags (m : List (String × List String)) (name : String) :
    List String → List (String × List String)
  | [] => m
  | tg :: rest =>
    index_tags (alist_insert m tg (ins_name name (alist_getD m tg []))) name rest

/-- ToolRegistry._index_tool: insert the tool's name into the category,
priority and tag indexes (each bucket keeps first-insertion order and holds
the name at most once). -/
def _index_tool (st : RegistryState) (tool : BaseTool) : RegistryState :=
  { st with
    by_category :=
      alist_insert st.by_category tool.category
        (ins_name tool.name (alist_getD st.by_category tool.category []))
    by_priority :=
      alist_insert st.by_priority tool.priority
        (ins_name tool.name (alist_getD st.by_priority tool.priority []))
    by_tag := index_tags st.by_tag tool.name tool.metadata.tags }

/-- ToolRegistry.register_tool: when defer is requested AND a loader is
supplied, store a deferred record built from the tool's metadata snapshot;
otherwise store the tool in the live map and index it.  The name-collision
check of the source only logs a warning; in particular neither branch removes
a pre-existing binding of the same name from the other map. -/
def register_tool (st : RegistryState) (tool : BaseTool) (defer : Bool)
    (loader_func : Option (Unit → Except String BaseTool)) : RegistryState :=
  match defer, loader_func with
  | true, some lf =>
    { st with
      deferred_tools :=
        alist_insert st.deferred_tools tool.name
          { category := tool.category
            priority := tool.priority
            loader := lf
            metadata := tool.metadata.to_dict } }
  | _, _ =>
    _index_tool { st with tools := alist_insert st.tools tool.name tool } tool

/-- ToolRegistry.get_tool. -/
def get_tool (st : RegistryState) (name : String) : Option BaseTool :=
  alist_get st.tools name

/-- ToolRegistry.get_all_tools: the live tools in insertion order. -/
def get_all_tools (st : RegistryState) : List BaseTool :=
  st.tools.map Prod.snd

/-- ToolRegistry.get_all_tool_names: live names then deferred names. -/
def get_all_tool_names (st : RegistryState) : List String :=
  st.tools.map Prod.fst ++ st.deferred_tools.map Prod.fst

/-- ToolRegistry.get_deferred_tool_names. -/
def get_deferred_tool_names (st : RegistryState) : List String :=
  st.deferred_tools.map Prod.fst

/-- ToolRegistry.get_tools_by_category: resolve the category bucket against
the live map, keeping only loaded tools. -/
def get_tools_by_category (st : RegistryState) (c : ToolCategory) : List BaseTool :=
  (alist_getD st.by_category c []).filterMap (fun n => alist_get st.tools n)

/-- ToolRegistry.load_tool: a live tool is returned as is; an unknown name
raises; otherwise the deferred record's loader runs, and only after it
returns is the tool stored, indexed, the deferred record deleted and
load_count incremented.  A loader failure escapes before any mutation, so the
state travels back unchanged in that case. -/
def load_tool (st : RegistryState) (name : String) :
    Except String BaseTool × RegistryState :=
  match alist_get st.tools name with
  | some t => (.ok t, st)
  | none =>
    match alist_get st.deferred_tools name with
    | none => (.error ("Tool " ++ name ++ " not found in registry"), st)
    | some info =>
      match info.loader () with
      | .error e => (.error e, st)
      | .ok tool =>
        let st1 := { st with tools := alist_insert st.tools name tool }
        let st2 := _index_tool st1 tool
        (.ok tool,
          { st2 with
            deferred_tools := alist_erase st2.deferred_tools name
            load_count := st2.load_count + 1 })

/-- An element of the mixed list ToolRegistry._get_searchable_tools returns:
either a live tool or the lightweight DeferredToolProxy built from a deferred
record. -/
inductive Searchable where
  | live (t : BaseTool)
  | proxy (pname : String) (info : DeferredInfo)

/-- The name attribute of a searchable entry. -/
def Searchable.name : Searchable → String
  | .live t => t.name
  | .proxy n _ => n

/-- The matches_query answer of a searchable entry.  A live tool uses
BaseTool.matches_query (name, description, tags and category value); the
DeferredToolProxy class defined inside _get_searchable_tools checks only the
name, the description and the tags — it never consults the category. -/
def Searchable.matches_query : Searchable → String → Bool
  | .live t, q => t.matches_query q
  | .proxy n info, q =>
    let ql := py_lower q
    py_str_in ql (py_lower n) ||
    py_str_in ql (py_lower info.metadata.description) ||
    info.metadata.tags.any (fun tg => py_str_in ql (py_lower tg))

/-- ToolRegistry._get_searchable_tools: the live tools (all of them, or the
category bucket when a filter is given) followed by a proxy for every
deferred record (skipping other categories when a filter is given). -/
def _get_searchable_tools (st : RegistryState) (category : Option ToolCategory) :
    List Searchable :=
  let loaded :=
    match category with
    | some c => get_tools_by_category st c
    | none => get_all_tools st
  loaded.map Searchable.live ++
    st.deferred_tools.filterMap (fun p =>
      match category with
      | some c => if p.2.category = c then some (.proxy p.1 p.2) else none
      | none => some (.proxy p.1 p.2))

/-- The sort key of ToolRegistry.search_tools: exact (case-insensitive) name
matches first, then minus the name length — so among tools with the same
exact-match status a LARGER length gives a SMALLER key. -/
def search_sort_key (query : String) (s : Searchable) : Nat × Int :=
  ((if py_lower s.name = py_lower query then 0 else 1 : Nat),
    -(s.name.length : Int))

/-- Lexicographic order on sort keys, as Python compares key tuples. -/
def key_le (a b : Nat × Int) : Bool :=
  a.1 < b.1 || (a.1 = b.1 && a.2 ≤ b.2)

/-- Insert an element into an already sorted list, after every element whose
key is less than or equal — the position a stable sort gives it. -/
def insert_sorted (le : α → α → Bool) (x : α) : List α → List α
  | [] => [x]
  | y :: ys => if le y x then y :: insert_sorted le x ys else x :: y :: ys

/-- Stable ascending sort by repeated insertion, matching Python list.sort
with a key function. -/
def stable_sort (le : α → α → Bool) (l : List α) : List α :=
  l.foldl (fun acc x => insert_sorted le x acc) []

/-- The full (pre-truncation) result sequence of ToolRegistry.search_tools:
the searchable entries matching the query, stably sorted by the key above. -/
def search_results_all (st : RegistryState) (query : String)
    (category : Option ToolCategory) : List Searchable :=
  stable_sort (fun a b => key_le (search_sort_key query a) (search_sort_key query b))
    ((_get_searchable_tools st category).filter (fun s => s.matches_query query))

/-- ToolRegistry.search_tools: bump search_count, filter, sort, truncate. -/
def search_tools (st : RegistryState) (query : String)
    (category : Option ToolCategory) (limit : Nat) :
    List Searchable × RegistryState :=
  ((search_results_all st query category).take limit,
    { st with search_count := st.search_count + 1 })

/-- A Python implementation function as the loader resolves it: the inspected
signature together with the runtime behavior. -/
structure FuncImpl where
  sig : PyFunc
  behavior : Args → Except String PyValue

/-- The environment standing in for importlib-based module resolution: it
maps a tool name to the implementation function the naming-convention
pipeline of loader.py finds for it, or none when the import or the symbol
lookup fails. -/
def FuncEnv : Type := String → Option FuncImpl

/-- One entry of config/tool_config.yaml as loader.py reads it. -/
structure ToolConf where
  category : Option String := none
  priority : Option String := none
  description : Option String := none
  tags : List String := []
  defer_loading : Option Bool := none
  input_schema : Option SchemaVal := none

/-- loader.py _import_and_get_tool: resolve the implementation function (an
unresolvable name raises ImportError), rebuild fresh metadata from the config
entry — with default description the empty string and WITHOUT any input
schema — and wrap it in a FunctionTool, which therefore derives the schema
from the real signature.  An unknown category name raises a KeyError here
because this function indexes the enum without a fallback. -/
def _import_and_get_tool (env : FuncEnv) (tool_name : String) (conf : ToolConf) :
    Except String BaseTool :=
  match env tool_name with
  | none => .error ("Could not find function for " ++ tool_name)
  | some f =>
    match category_by_name (py_upper (conf.category.getD "web")) with
    | none => .error "KeyError"
    | some cat =>
      let metadata : ToolMetadata :=
        { name := tool_name
          description := conf.description.getD ""
          category := cat
          priority := (priority_by_name (py_upper (conf.priority.getD "MEDIUM"))).getD .MEDIUM
          tags := conf.tags }
      .ok (FunctionTool.make metadata f.sig f.behavior)

/-- loader.py register_tool_from_config: parse category (unknown names fall
back to WEB with a warning) and priority, force immediate loading when the
config carries no truthy input schema, build the metadata — whose
input_schema field is never populated from the config — and either register a
dummy FunctionTool (wrapping a no-argument lambda returning None) as deferred
with an _import_and_get_tool loader, or import immediately, skipping the tool
on failure. -/
def register_tool_from_config (env : FuncEnv) (st : RegistryState)
    (tool_name : String) (conf : ToolConf) : RegistryState :=
  let category :=
    (category_by_name (py_upper (conf.category.getD "web"))).getD .web
  let priority :=
    (priority_by_name (py_upper (conf.priority.getD "MEDIUM"))).getD .MEDIUM
  let defer_loading :=
    if conf.defer_loading.getD true && !(opt_schema_truthy conf.input_schema) then
      false
    else conf.defer_loading.getD true
  let metadata : ToolMetadata :=
    { name := tool_name
      description := conf.description.getD ("Tool " ++ tool_name)
      category := category
      priority := priority
      tags := conf.tags
      defer_loading := defer_loading }
  if defer_loading then
    let dummy_tool :=
      FunctionTool.make metadata { params := [] } (fun _ => .ok .pnone)
    register_tool st dummy_tool true (some (fun _ => _import_and_get_tool env tool_name conf))
  else
    match _import_and_get_tool env tool_name conf with
    | .ok tool_instance => register_tool st tool_instance false none
    | .error _ => st

/-- The MCP Tool descriptor (name, description, inputSchema) emitted by
discovery. -/
structure McpTool where
  name : String
  description : String
  inputSchema : SchemaVal
deriving DecidableEq, Repr

/-- loader.py get_tool_list: walk all names (live then deferred); a live tool
contributes its own name, description and metadata schema (or the empty
dict), a deferred record contributes its stored name, metadata-dict
description and metadata-dict schema (or the empty dict). -/
def get_tool_list (st : RegistryState) : List McpTool :=
  (get_all_tool_names st).filterMap (fun name =>
    match get_tool st name with
    | some tool =>
      some
        { name := tool.name
          description := tool.description
          inputSchema := or_empty_dict tool.metadata.input_schema }
    | none =>
      match alist_get st.deferred_tools name with
      | some info =>
        some
          { name := name
            description := info.metadata.description
            inputSchema := or_empty_dict info.metadata.input_schema }
      | none => none)

/-- A content block of the RPC surface.  Adapter results are modelled as
PyValue, so the pass-through branch for a list that already consists of
content blocks cannot arise in the embedding; every other branch of the
server's encoder is represented. -/
inductive ContentBlock where
  | text (s : String)
deriving DecidableEq, Repr

/-- Python str() of the scalar results the encoder stringifies. -/
def py_str : PyValue → String
  | .pstr s => s
  | .pint n => toString n
  | .pbool b => if b then "True" else "False"
  | .pnone => "None"
  | .pjson dump => dump

/-- The result encoding of server.py call_tool: scalars become their string
form, dict and list results become one text block with their JSON dump, None
falls to the final str() branch. -/
def encode_result (v : PyValue) : List ContentBlock :=
  match v with
  | .pstr s => [.text s]
  | .pint n => [.text (toString n)]
  | .pbool b => [.text (py_str (.pbool b))]
  | .pjson dump => [.text dump]
  | .pnone => [.text "None"]

/-- server.py call_tool: materialize through registry.load_tool, then invoke
the tool's execute method DIRECTLY — not execute_with_tracking and not
registry.execute_tool — and encode the result; any exception raised along the
way is caught and turned into a single error text block, keeping whatever
registry mutations already happened.  The source's truthiness re-check of the
loaded tool cannot fire because load_tool raises instead of returning None. -/
def call_tool (st : RegistryState) (name : String) (args : Args) :
    List ContentBlock × RegistryState :=
  match load_tool st name with
  | (.error e, st1) =>
    ([.text ("Error executing tool " ++ name ++ ": " ++ e)], st1)
  | (.ok tool, st1) =>
    match tool.execute args with
    | .error e => ([.text ("Error executing tool " ++ name ++ ": " ++ e)], st1)
    | .ok result => (encode_result result, st1)

/-- Second half of ToolRegistry.execute_tool: look the tool up and delegate
to execute_with_tracking; the in-place counter mutation of the Python object
is modelled by writing the updated tool back into the live map. -/
def execute_tool_tracked (st : RegistryState) (name : String) (args : Args)
    (dur : Nat) : Except String PyValue × RegistryState :=
  match get_tool st name with
  | none => (.error ("Tool " ++ name ++ " not found"), st)
  | some tool =>
    let p := tool.execute_with_tracking args dur
    (p.1, { st with tools := alist_insert st.tools name p.2 })

/-- ToolRegistry.execute_tool: load first when the name is deferred (a load
failure propagates), then delegate to execute_with_tracking.  This is the
tracked path the registry offers; the call_tool handler above does not go
through it. -/
def execute_tool (st : RegistryState) (name : String) (args : Args) (dur : Nat) :
    Except String PyValue × RegistryState :=
  if alist_has st.deferred_tools name then
    match load_tool st name with
    | (.error e, st1) => (.error e, st1)
    | (.ok _, st1) => execute_tool_tracked st1 name args dur
  else execute_tool_tracked st name args dur

/-! Concrete instances used by the claim evaluations and witnesses. -/

/-- A metadata-dictionary literal used by several concrete registries. -/
def mk_meta_dict (n d c : String) (tags : List String) : MetadataDict :=
  { name := n
    description := d
    category := c
    priority := "MEDIUM"
    version := "1.0.0"
    tags := tags
    examples := []
    defer_loading := true
    input_schema := none
    output_schema := none
    estimated_duration_ms := none
    requires_network := false
    requires_filesystem := false }

/-- A live tool with the given name, description, category and tags whose
adapter returns the string "hi". -/
def mk_ok_tool (n d : String) (c : ToolCategory) (tags : List String) : BaseTool :=
  { metadata := { name := n, description := d, category := c, tags := tags }
    behavior := fun _ => .ok (.pstr "hi") }

/-- A live tool whose adapter raises with the message "boom". -/
def mk_err_tool (n : String) : BaseTool :=
  { metadata := { name := n, description := "", category := .web }
    behavior := fun _ => .error "boom" }

/-- Registry for the C1 evaluation: one succeeding and one failing live tool. -/
def st_c1 : RegistryState :=
  register_tool
    (register_tool empty_registry (mk_ok_tool "echo" "" .web []) false none)
    (mk_err_tool "crash") false none

/-- Registry for the C2 evaluation: two live tools whose names share the
stem "search" and differ only in length, neither equal to the query. -/
def st_c2 : RegistryState :=
  register_tool
    (register_tool empty_registry (mk_ok_tool "search_a" "" .web []) false none)
    (mk_ok_tool "search_ab" "" .web []) false none

/-- Deferred record for the C3 counterexample: category value "web", but a
name, description and tag set that do not contain "web". -/
def info_c3 : DeferredInfo :=
  { category := .web
    priority := .MEDIUM
    loader := fun _ => .error "unused"
    metadata := mk_meta_dict "t1" "d" "web" [] }

/-- Registry for the C3 counterexample: a single deferred tool. -/
def st_c3 : RegistryState := { deferred_tools := [("t1", info_c3)] }

/-- Deferred record for the C3 witness: its description contains "github". -/
def info_w3 : DeferredInfo :=
  { category := .social
    priority := .MEDIUM
    loader := fun _ => .error "unused"
    metadata := mk_meta_dict "wtool" "Search GitHub repositories" "social" [] }

/-- Registry for the C3 witness. -/
def st_w3 : RegistryState := { deferred_tools := [("wtool", info_w3)] }

/-- Registry for the C4 evaluation: the name alpha registered live and then
registered again as deferred with a loader. -/
def st_c4 : RegistryState :=
  register_tool
    (register_tool empty_registry (mk_ok_tool "alpha" "" .web []) false none)
    (mk_ok_tool "alpha" "" .web []) true
    (some (fun _ => .ok (mk_ok_tool "alpha" "" .web [])))

/-- Implementation function the C5 environment resolves search_github to:
one required string parameter named query. -/
def gh_func : FuncImpl :=
  { sig :=
      { params :=
          [{ name := "query", kind := .positionalOrKeyword, ty := .pystr,
             hasDefault := false }] }
    behavior := fun _ => .ok (.pjson "gh-results") }

/-- Module-resolution environment for the C5 evaluation. -/
def env_c5 : FuncEnv := fun n => if n = "search_github" then some gh_func else none

/-- Config entry for the C5 evaluation: deferred, with a description and a
(truthy) config-provided input schema. -/
def conf_c5 : ToolConf :=
  { category := some "social"
    description := some "Search GitHub repositories"
    defer_loading := some true
    input_schema := some (.other "config-schema") }

/-- Registry after registering search_github from config (still deferred). -/
def st_c5_before : RegistryState :=
  register_tool_from_config env_c5 empty_registry "search_github" conf_c5

/-- Registry after the deferred tool has been promoted by load_tool. -/
def st_c5_after : RegistryState := (load_tool st_c5_before "search_github").2

/-- Deferred record for the C6 witness, whose loader raises "nope". -/
def info_w6 : DeferredInfo :=
  { category := .web
    priority := .MEDIUM
    loader := fun _ => .error "nope"
    metadata := mk_meta_dict "bad" "" "web" [] }

/-- Registry for the C6 witness. -/
def st_w6 : RegistryState := { deferred_tools := [("bad", info_w6)] }

/-- Signature with a single plain (positional-or-keyword, not variadic)
parameter that happens to be named args. -/
def args_named_func : PyFunc :=
  { params :=
      [{ name := "args", kind := .positionalOrKeyword, ty := .pystr,
         hasDefault := false }] }

/-- Signature with a single variadic-positional parameter named rest. -/
def rest_variadic_func : PyFunc :=
  { params :=
      [{ name := "rest", kind := .varPositional, ty := .pyint,
         hasDefault := false }] }

/-- The first parameter of the C7 witness signature. -/
def p_query : Param :=
  { name := "query", kind := .positionalOrKeyword, ty := .pystr, hasDefault := false }

/-- Signature for the C7 witness: a required query and a defaulted limit. -/
def query_func : PyFunc :=
  { params :=
      [p_query,
       { name := "limit", kind := .positionalOrKeyword, ty := .pyint,
         hasDefault := true }] }

/-- Tool for the C9 witness, carrying two tags. -/
def tool_w9 : BaseTool :=
  { metadata :=
      { name := "w9", description := "", category := .context,
        priority := .LOW, tags := ["taga", "tagb"] }
    behavior := fun _ => .ok .pnone }

/-- Live tool for the C10 witness. -/
def tool_w10 : BaseTool := mk_ok_tool "ready" "" .files []

/-- Registry for the C10 witness: one live tool, one unrelated deferred one. -/
def st_w10 : RegistryState :=
  { tools := [("ready", tool_w10)]
    deferred_tools := [("bad", info_w6)] }

/-! Helper lemmas about the dict and sorting models. -/

theorem alist_get_insert_self [DecidableEq κ] (m : List (κ × α)) (k : κ) (v : α) :
    alist_get (alist_insert m k v) k = some v := by
  induction m with
  | nil => simp [alist_insert, alist_get]
  | cons p rest ih =>
    by_cases h : p.1 = k
    · simp [alist_insert, h, alist_get]
    · simp [alist_insert, h, alist_get, ih]

theorem alist_get_insert_ne [DecidableEq κ] (m : List (κ × α)) (k k1 : κ) (v : α)
    (h : k1 ≠ k) : alist_get (alist_insert m k1 v) k = alist_get m k := by
  induction m with
  | nil => simp [alist_insert, alist_get, h]
  | cons p rest ih =>
    by_cases hp : p.1 = k1
    · simp [alist_insert, hp, alist_get, h, ih]
    · simp [alist_insert, hp, alist_get, ih]

theorem alist_getD_insert_self [DecidableEq κ] (m : List (κ × α)) (k : κ) (v d : α) :
    alist_getD (alist_insert m k v) k d = v := by
  rw [alist_getD, alist_get_insert_self]; rfl

theorem mem_ins_name (n : String) (l : List String) : n ∈ ins_name n l := by
  unfold ins_name
  split
  · assumption
  · simp

theorem mem_getD_index_tags_pres (m : List (String × List String)) (n : String)
    (tags : List String) (tg : String) (h : n ∈ alist_getD m tg []) :
    n ∈ alist_getD (index_tags m n tags) tg [] := by
  induction tags generalizing m with
  | nil => simpa [index_tags] using h
  | cons t rest ih =>
    simp only [index_tags]
    apply ih
    by_cases ht : t = tg
    · subst ht
      simpa [alist_getD_insert_self] using mem_ins_name n (alist_getD m t [])
    · rwa [alist_getD, alist_get_insert_ne _ _ _ _ ht, ← alist_getD]

theorem mem_getD_index_tags (m : List (String × List String)) (n : String)
    (tags : List String) (tg : String) (h : tg ∈ tags) :
    n ∈ alist_getD (index_tags m n tags) tg [] := by
  induction tags generalizing m with
  | nil => cases h
  | cons t rest ih =>
    simp only [index_tags]
    rcases List.mem_cons.mp h with h1 | h2
    · subst h1
      apply mem_getD_index_tags_pres
      simpa [alist_getD_insert_self] using mem_ins_name n (alist_getD m tg [])
    · exact ih _ h2

theorem mem_insert_sorted (le : α → α → Bool) (x a : α) (l : List α) :
    a ∈ insert_sorted le x l ↔ a = x ∨ a ∈ l := by
  induction l with
  | nil => simp [insert_sorted]
  | cons y ys ih =>
    unfold insert_sorted
    split
    · simp only [List.mem_cons, ih]
      tauto
    · simp only [List.mem_cons]

theorem mem_stable_sort_aux (le : α → α → Bool) (l acc : List α) (a : α)
    (h : a ∈ acc ∨ a ∈ l) :
    a ∈ l.foldl (fun acc x => insert_sorted le x acc) acc := by
  induction l generalizing acc with
  | nil => simpa using h
  | cons x xs ih =>
    simp only [List.foldl_cons]
    apply ih
    rcases h with h | h
    · exact Or.inl ((mem_insert_sorted le x a acc).mpr (Or.inr h))
    · rcases List.mem_cons.mp h with h1 | h2
      · exact Or.inl ((mem_insert_sorted le x a acc).mpr (Or.inl h1))
      · exact Or.inr h2

theorem mem_stable_sort (le : α → α → Bool) (l : List α) (a : α) (h : a ∈ l) :
    a ∈ stable_sort le l :=
  mem_stable_sort_aux le l [] a (Or.inr h)

/-! Claim theorems. -/

/-- C1 (code_bug evidence): the call_tool handler of server.py executes a
tool through BaseTool.execute, not through the tracked path, so a successful
call and a failing call both leave execution_count, total_duration_ms and
error_count of every registered tool at zero — no counter ever moves through
dispatch.  Evaluated on a registry with one succeeding adapter (the call
returns its result) and one raising adapter (the call returns the in-band
error block). -/
theorem call_tool_bypasses_tracking :
    (call_tool st_c1 "echo" []).1 = [.text "hi"] ∧
    ((call_tool st_c1 "echo" []).2.tools.map
        (fun p => (p.1, p.2.execution_count, p.2.total_duration_ms, p.2.error_count))) =
      [("echo", 0, 0, 0), ("crash", 0, 0, 0)] ∧
    (call_tool st_c1 "crash" []).1 = [.text "Error executing tool crash: boom"] ∧
    ((call_tool st_c1 "crash" []).2.tools.map
        (fun p => (p.1, p.2.execution_count, p.2.total_duration_ms, p.2.error_count))) =
      [("echo", 0, 0, 0), ("crash", 0, 0, 0)] :=
  ⟨rfl, rfl, rfl, rfl⟩

/-- C2 (code_bug evidence): for the query "search", both registered tools
match and neither is an exact name match, yet search_tools returns the
LONGER name search_ab before the shorter search_a — the sort key negates the
name length, so longer names come first, contrary to the claim and to the
source's own "Shorter names first" comment. -/
theorem search_orders_longer_names_first :
    ((search_tools st_c2 "search" none 10).1.map Searchable.name) =
      ["search_ab", "search_a"] := rfl

/-- C3 (counterexample): the deferred tool t1 has category value "web",
which contains the query "web", while its name, description and tags do not;
the claim places it in the search result, but search_tools returns nothing
because the deferred proxy's matches_query never consults the category. -/
theorem deferred_category_match_not_returned :
    ((search_tools st_c3 "web" none 10).1.map Searchable.name) = [] ∧
    py_str_in (py_lower "web") (py_lower info_c3.metadata.category) = true :=
  ⟨rfl, rfl⟩

/-- C3 (amended): before truncation, the search result contains every live
tool for which the query is a case-insensitive substring of its name,
description, one of its tags, or its category value, and every deferred tool
for which the query is a case-insensitive substring of its name, description
or one of its tags — the category value is not consulted for deferred
tools. -/
theorem search_includes_all_matching_tools (st : RegistryState) (q : String) :
    (∀ pt ∈ st.tools,
        (py_str_in (py_lower q) (py_lower pt.2.name) ||
         py_str_in (py_lower q) (py_lower pt.2.description) ||
         pt.2.metadata.tags.any (fun tg => py_str_in (py_lower q) (py_lower tg)) ||
         py_str_in (py_lower q) (py_lower pt.2.category.value)) = true →
        Searchable.live pt.2 ∈ search_results_all st q none) ∧
    (∀ pd ∈ st.deferred_tools,
        (py_str_in (py_lower q) (py_lower pd.1) ||
         py_str_in (py_lower q) (py_lower pd.2.metadata.description) ||
         pd.2.metadata.tags.any (fun tg => py_str_in (py_lower q) (py_lower tg))) = true →
        Searchable.proxy pd.1 pd.2 ∈ search_results_all st q none) := by
  constructor
  · intro pt hpt hm
    apply mem_stable_sort
    refine List.mem_filter.mpr ⟨?_, ?_⟩
    · simp only [_get_searchable_tools, get_all_tools]
      exact List.mem_append_left _
        (List.mem_map_of_mem _ (List.mem_map_of_mem _ hpt))
    · exact hm
  · intro pd hpd hm
    apply mem_stable_sort
    refine List.mem_filter.mpr ⟨?_, ?_⟩
    · simp only [_get_searchable_tools]
      exact List.mem_append_right _ (List.mem_filterMap.mpr ⟨pd, hpd, rfl⟩)
    · exact hm

/-- C3 (witness): a deferred tool whose description contains "github" is
found by searching "github". -/
theorem search_includes_all_matching_tools_witness :
    Searchable.proxy "wtool" info_w3 ∈ search_results_all st_w3 "github" none :=
  (search_includes_all_matching_tools st_w3 "github").2 ("wtool", info_w3)
    (List.mem_cons_self _ _) rfl

/-- C4 (code_bug evidence): registering the name alpha live and then again
as deferred (with a loader) leaves alpha present in BOTH the live map and
the deferred map — register_tool only warns on collision and never removes
the other map's binding. -/
theorem reregistration_leaves_name_in_both_maps :
    alist_has st_c4.tools "alpha" = true ∧
    alist_has st_c4.deferred_tools "alpha" = true :=
  ⟨rfl, rfl⟩

/-- C5 (code_bug evidence): a tool registered deferred from config (with a
config-provided schema) is listed with the empty-properties schema derived
from the placeholder lambda, and after promotion it is listed with the
schema derived from the real implementation signature — the discovery
descriptor changes across promotion. -/
theorem descriptor_changes_across_promotion :
    get_tool_list st_c5_before =
      [{ name := "search_github", description := "Search GitHub repositories",
         inputSchema := .objS { properties := [], required := [] } }] ∧
    get_tool_list st_c5_after =
      [{ name := "search_github", description := "Search GitHub repositories",
         inputSchema :=
           .objS { properties := [("query", "string")], required := ["query"] } }] :=
  ⟨rfl, rfl⟩

/-- C6: when the backing loader of a deferred tool raises, load_tool
propagates exactly that error and returns the registry unchanged — the name
stays in the deferred map with its original loader, nothing is added to the
live map or the indexes, and load_count is untouched, so a later load_tool
retries the same loader. -/
theorem load_failure_leaves_registry_unchanged (st : RegistryState)
    (name e : String) (info : DeferredInfo)
    (h1 : alist_get st.tools name = none)
    (h2 : alist_get st.deferred_tools name = some info)
    (h3 : info.loader () = .error e) :
    load_tool st name = (.error e, st) := by
  simp [load_tool, h1, h2, h3]

/-- C6 (witness): the loader of the deferred tool bad raises "nope", and
load_tool returns that error with the state intact. -/
theorem load_failure_leaves_registry_unchanged_witness :
    load_tool st_w6 "bad" = (.error "nope", st_w6) :=
  load_failure_leaves_registry_unchanged st_w6 "bad" "nope" info_w6 rfl rfl rfl

/-- C10: for a name already in the live map, load_tool returns the stored
tool and the state completely unchanged — no loader runs, nothing is
re-indexed, load_count stays, and no error is raised even when the name is
not deferred. -/
theorem load_tool_on_live_name_is_identity (st : RegistryState) (name : String)
    (t : BaseTool) (h : alist_get st.tools name = some t) :
    load_tool st name = (.ok t, st) := by
  simp [load_tool, h]

/-- C10 (witness): loading the live tool ready returns it and leaves the
registry (including the unrelated deferred entry) unchanged. -/
theorem load_tool_on_live_name_is_identity_witness :
    load_tool st_w10 "ready" = (.ok tool_w10, st_w10) :=
  load_tool_on_live_name_is_identity st_w10 "ready" tool_w10 rfl

/-- C7 (counterexample): the schema deriver skips parameters by NAME, not by
kind.  A plain positional-or-keyword parameter named args (not self, not cls
and not variadic) is dropped from properties although the claim requires it
to appear, and a variadic-positional parameter named rest appears in
properties and required although the claim requires every variadic parameter
to be skipped. -/
theorem schema_skip_rule_counterexample :
    (args_named_func.params.map Param.kind = [.positionalOrKeyword] ∧
     (generate_input_schema args_named_func).properties = []) ∧
    (rest_variadic_func.params.map Param.kind = [.varPositional] ∧
     (generate_input_schema rest_variadic_func).properties = [("rest", "integer")] ∧
     (generate_input_schema rest_variadic_func).required = ["rest"]) :=
  ⟨⟨rfl, rfl⟩, rfl, rfl, rfl⟩

/-- C7 (amended): the generated properties exclude exactly the parameters
NAMED self, cls, kwargs or args, whatever their kind; every other parameter
(variadic or not) appears in properties with its mapped JSON type, and
appears in required iff it has no default. -/
theorem schema_skips_parameters_by_name (f : PyFunc)
    (hnd : (f.params.map Param.name).Nodup) :
    ∀ p ∈ f.params,
      ((p.name = "self" ∨ p.name = "cls" ∨ p.name = "kwargs" ∨ p.name = "args") →
          ∀ pr ∈ (generate_input_schema f).properties, pr.1 ≠ p.name) ∧
      (¬(p.name = "self" ∨ p.name = "cls" ∨ p.name = "kwargs" ∨ p.name = "args") →
          ((p.name, get_json_type p.ty) ∈ (generate_input_schema f).properties ∧
           (p.name ∈ (generate_input_schema f).required ↔ p.hasDefault = false))) := by
  have hset : ∀ q : Param,
      ((!(q.name == "self" || q.name == "cls" || q.name == "kwargs" ||
          q.name == "args")) = true) ↔
        ¬(q.name = "self" ∨ q.name = "cls" ∨ q.name = "kwargs" ∨ q.name = "args") := by
    intro q
    constructor
    · intro hb hor
      rcases hor with h | h | h | h <;> simp [h] at hb
    · intro hor
      simp only [Bool.not_eq_true', Bool.or_eq_false_iff, beq_eq_false_iff_ne]
      push_neg at hor
      tauto
  intro p hp
  constructor
  · intro hskip pr hpr
    simp only [generate_input_schema, List.mem_map, List.mem_filter] at hpr
    obtain ⟨p1, ⟨hp1, hkeep⟩, hpr1⟩ := hpr
    have hk := (hset p1).mp hkeep
    intro hcontra
    apply hk
    rw [← hpr1] at hcontra
    have hn : p1.name = p.name := hcontra
    rcases hskip with h | h | h | h
    · exact Or.inl (hn.trans h)
    · exact Or.inr (Or.inl (hn.trans h))
    · exact Or.inr (Or.inr (Or.inl (hn.trans h)))
    · exact Or.inr (Or.inr (Or.inr (hn.trans h)))
  · intro hkeep
    have hmemk :
        p ∈ f.params.filter (fun q =>
          !(q.name == "self" || q.name == "cls" || q.name == "kwargs" ||
            q.name == "args")) :=
      List.mem_filter.mpr ⟨hp, (hset p).mpr hkeep⟩
    refine ⟨List.mem_map_of_mem _ hmemk, ?_, ?_⟩
    · intro hreq
      simp only [generate_input_schema, List.mem_map, List.mem_filter] at hreq
      obtain ⟨p1, ⟨⟨hp1, _⟩, hdef1⟩, hname1⟩ := hreq
      have hpp : p1 = p := List.inj_on_of_nodup_map hnd hp1 hp hname1
      rw [← hpp]
      simpa using hdef1
    · intro hdef
      have hmem2 :
          p ∈ (f.params.filter (fun q =>
            !(q.name == "self" || q.name == "cls" || q.name == "kwargs" ||
              q.name == "args"))).filter (fun q => !q.hasDefault) :=
        List.mem_filter.mpr ⟨hmemk, by simp [hdef]⟩
      exact List.mem_map_of_mem _ hmem2

/-- C7 (witness): for a signature with a required query parameter and a
defaulted limit parameter, the query parameter appears in properties with
type string and is required. -/
theorem schema_skips_parameters_by_name_witness :
    ("query", get_json_type PyType.pystr) ∈ (generate_input_schema query_func).properties ∧
    ("query" ∈ (generate_input_schema query_func).required ↔ p_query.hasDefault = false) :=
  (schema_skips_parameters_by_name query_func (by decide) p_query
    (List.mem_cons_self _ _)).2 (by decide)

/-- C9: registering a tool with defer = true but WITHOUT a loader function
falls into the immediate branch of register_tool: in a registry where the
name is fresh, the tool lands in the live map (get_tool returns it), the
deferred map stays without it, and the name is indexed under its category,
its priority and each of its tags. -/
theorem register_defer_without_loader_is_live (st : RegistryState)
    (tool : BaseTool)
    (h1 : alist_get st.tools tool.name = none)
    (h2 : alist_get st.deferred_tools tool.name = none) :
    get_tool (register_tool st tool true none) tool.name = some tool ∧
    alist_get (register_tool st tool true none).deferred_tools tool.name = none ∧
    tool.name ∈ alist_getD (register_tool st tool true none).by_category tool.category [] ∧
    tool.name ∈ alist_getD (register_tool st tool true none).by_priority tool.priority [] ∧
    ∀ tg ∈ tool.metadata.tags,
      tool.name ∈ alist_getD (register_tool st tool true none).by_tag tg [] := by
  refine ⟨?_, ?_, ?_, ?_, ?_⟩
  · show alist_get (alist_insert st.tools tool.name tool) tool.name = some tool
    exact alist_get_insert_self st.tools tool.name tool
  · exact h2
  · show tool.name ∈ alist_getD
      (alist_insert st.by_category tool.category
        (ins_name tool.name (alist_getD st.by_category tool.category []))) tool.category []
    rw [alist_getD_insert_self]
    exact mem_ins_name tool.name _
  · show tool.name ∈ alist_getD
      (alist_insert st.by_priority tool.priority
        (ins_name tool.name (alist_getD st.by_priority tool.priority []))) tool.priority []
    rw [alist_getD_insert_self]
    exact mem_ins_name tool.name _
  · intro tg htg
    show tool.name ∈ alist_getD (index_tags st.by_tag tool.name tool.metadata.tags) tg []
    exact mem_getD_index_tags _ _ _ _ htg

/-- C9 (witness): registering the fresh tool w9 with defer = true and no
loader makes it live, keeps it out of the deferred map, and indexes it under
its category, priority and the tag taga. -/
theorem register_defer_without_loader_is_live_witness :
    get_tool (register_tool empty_registry tool_w9 true none) "w9" = some tool_w9 ∧
    alist_get (register_tool empty_registry tool_w9 true none).deferred_tools "w9" = none ∧
    "w9" ∈ alist_getD (register_tool empty_registry tool_w9 true none).by_category .context [] ∧
    "w9" ∈ alist_getD (register_tool empty_registry tool_w9 true none).by_priority .LOW [] ∧
    "w9" ∈ alist_getD (register_tool empty_registry tool_w9 true none).by_tag "taga" [] := by
  have h := register_defer_without_loader_is_live empty_registry tool_w9 rfl rfl
  exact ⟨h.1, h.2.1, h.2.2.1, h.2.2.2.1, h.2.2.2.2 "taga" (by simp [tool_w9])⟩
